import Mathlib

/-!
# Verification of the CoreML foreign-function bridge contract

The repository fragment under verification is the C boundary header
`src/backend/golang/pkg/ai/coreml/coreml_bridge.h`, which declares four
operations: `coreml_load_model`, `coreml_release_model`, `coreml_predict`
and `coreml_free_result`, together with the `CoreMLModelHandle` typedef
(`void*`) and the `CoreMLResult` struct (`char* response; char* error;
int success`).

Two layers are embedded here:

1. A *static* model of the header's declarations (types, argument lists,
   return types), transcribed directly from `coreml_bridge.h`.  These back
   the claims about the shape of the boundary surface.

2. A *dynamic* model of the bridge's behaviour.  The repository holds only
   the header — the implementation behind it is not under `src/` — so the
   behaviour is modelled from the specification: the bridge keeps a table
   of live model handles and a set of live result text buffers, delegates
   loading and inference to an abstract native runtime, and reports errors
   exactly as the spec describes (null sentinel for load, tagged result for
   predict).  Handles are natural numbers with `0` playing the role of the
   C null pointer.
-/

/-- C type expressions occurring in `coreml_bridge.h`. -/
inductive CType where
  | void
  | cInt
  | charPtr
  | constCharPtr
  | voidPtr
  | structCoreMLResult
  | ptrStructCoreMLResult
deriving DecidableEq

/-- `typedef void* CoreMLModelHandle;` — coreml_bridge.h line 8. -/
def CoreMLModelHandle : CType := CType.voidPtr

/-- A field of a C struct declaration. -/
structure CField where
  fname : String
  ftype : CType
deriving DecidableEq

/-- Fields of `struct CoreMLResult` — coreml_bridge.h lines 15-19. -/
def coreMLResultFields : List CField :=
  [⟨"response", CType.charPtr⟩, ⟨"error", CType.charPtr⟩, ⟨"success", CType.cInt⟩]

/-- A C function declaration: name, argument types, return type. -/
structure CDecl where
  cname : String
  argTypes : List CType
  retType : CType
deriving DecidableEq

/-- The four function declarations of `coreml_bridge.h`, in header order
(lines 11, 12, 21, 22). -/
def headerDecls : List CDecl :=
  [⟨"coreml_load_model", [CType.constCharPtr], CoreMLModelHandle⟩,
   ⟨"coreml_release_model", [CoreMLModelHandle], CType.void⟩,
   ⟨"coreml_predict", [CoreMLModelHandle, CType.constCharPtr], CType.structCoreMLResult⟩,
   ⟨"coreml_free_result", [CType.ptrStructCoreMLResult], CType.void⟩]

/-- Language-neutral types used by the spec's description of the boundary
surface (spec §6). -/
inductive SpecType where
  | void
  | nullTermText
  | nullableOpaqueHandle
  | resultStructByValue
  | ptrToResultStruct
  | nullableText
  | boolean
deriving DecidableEq

/-- A boundary operation as the spec lists it: name, argument types, return
type. -/
structure SpecOp where
  sname : String
  sargs : List SpecType
  sret : SpecType
deriving DecidableEq

/-- Modelled from the spec: the boundary surface of §6, the four operations
`load_model`, `release_model`, `predict`, `free_result` with the signatures
the spec lists. -/
def specSurface : List SpecOp :=
  [⟨"load_model", [SpecType.nullTermText], SpecType.nullableOpaqueHandle⟩,
   ⟨"release_model", [SpecType.nullableOpaqueHandle], SpecType.void⟩,
   ⟨"predict", [SpecType.nullableOpaqueHandle, SpecType.nullTermText],
      SpecType.resultStructByValue⟩,
   ⟨"free_result", [SpecType.ptrToResultStruct], SpecType.void⟩]

/-- Modelled from the spec: the fields of the result structure as §6 lists
them — `{ response: nullable text, error: nullable text, success: boolean }`. -/
def specResultFields : List (String × SpecType) :=
  [("response", SpecType.nullableText), ("error", SpecType.nullableText),
   ("success", SpecType.boolean)]

/-- Correspondence between a concrete C type of the header and the
language-neutral type the spec uses for the same position: `const char*`
realises null-terminated text, `void*` realises a nullable opaque handle,
`char*` realises nullable text, C `int` realises a boolean, and the result
struct (by value, or by pointer) realises the spec's result structure. -/
def ctypeMatchesSpec : CType → SpecType → Bool
  | CType.void, SpecType.void => true
  | CType.constCharPtr, SpecType.nullTermText => true
  | CType.voidPtr, SpecType.nullableOpaqueHandle => true
  | CType.structCoreMLResult, SpecType.resultStructByValue => true
  | CType.ptrStructCoreMLResult, SpecType.ptrToResultStruct => true
  | CType.charPtr, SpecType.nullableText => true
  | CType.cInt, SpecType.boolean => true
  | _, _ => false

/-- A header declaration matches a spec operation when the C name is the
spec name with the `coreml_` prefix, and arguments and return type match
position by position. -/
def declMatchesSpec (d : CDecl) (o : SpecOp) : Bool :=
  (d.cname == "coreml_" ++ o.sname) &&
  (d.argTypes.length == o.sargs.length) &&
  (List.zip d.argTypes o.sargs).all (fun p => ctypeMatchesSpec p.1 p.2) &&
  ctypeMatchesSpec d.retType o.sret

/-- The whole boundary surface matches: same number of operations, each
declaration matches the corresponding spec operation, and the result struct
fields match the spec's field list name by name and type by type. -/
def surfaceMatches : Bool :=
  (headerDecls.length == specSurface.length) &&
  (List.zip headerDecls specSurface).all (fun p => declMatchesSpec p.1 p.2) &&
  (coreMLResultFields.length == specResultFields.length) &&
  (List.zip coreMLResultFields specResultFields).all
    (fun p => (p.1.fname == p.2.1) && ctypeMatchesSpec p.1.ftype p.2.2)

/-- An opaque loaded-model instance of the native runtime, represented
abstractly (its format and semantics are external to the bridge). -/
abbrev NativeModel := String

/-- Modelled from the spec: the native ML runtime the bridge wraps (an
external collaborator, absent from `src/`).  `loadModel` takes a filesystem
path and yields a model instance or fails; `infer` runs single-shot text
inference on a loaded model, yielding either a response text or a
diagnostic message. -/
structure Runtime where
  loadModel : String → Option NativeModel
  infer : NativeModel → String → Except String String

/-- The `CoreMLResult` struct of coreml_bridge.h lines 15-19: the nullable
`char*` fields `response` and `error` become `Option String` (`none` is the
C null pointer), and `success` is the C `int` flag. -/
structure CoreMLResult where
  response : Option String
  error : Option String
  success : Int
deriving DecidableEq

/-- Modelled from the spec: the bridge-attributable native resources at one
instant (the implementation behind the header is not under `src/`).
`models` maps each live (unreleased) handle to its loaded model instance;
`liveResults` lists the ids of predict results whose text buffers have not
been freed yet; `nextHandle` and `nextResult` supply fresh ids.  Handle `0`
is reserved as the C null pointer and is never allocated. -/
structure BridgeState where
  nextHandle : Nat
  models : List (Nat × NativeModel)
  nextResult : Nat
  liveResults : List Nat
deriving DecidableEq

/-- The bridge state before any operation: no live handles, no live result
buffers, handle ids start at 1 (0 is the null sentinel). -/
def initState : BridgeState := ⟨1, [], 0, []⟩

/-- Look up the model instance of a handle in the live-handle table. -/
def findModel (h : Nat) : List (Nat × NativeModel) → Option NativeModel
  | [] => none
  | e :: es => if e.1 = h then some e.2 else findModel h es

/-- Remove a handle (the first entry with that id) from the live-handle
table. -/
def removeHandle (h : Nat) : List (Nat × NativeModel) → List (Nat × NativeModel)
  | [] => []
  | e :: es => if e.1 = h then es else e :: removeHandle h es

/-- Remove a result id (its first occurrence) from the live-result list. -/
def removeResult (r : Nat) : List Nat → List Nat
  | [] => []
  | x :: xs => if x = r then xs else x :: removeResult r xs

/-- Modelled from the spec: `coreml_load_model` (declared at
coreml_bridge.h line 11; its implementation is not under `src/`).  The
bridge delegates to the native loader.  On failure it returns the null
sentinel handle `0` and the state is unchanged — no resources are
allocated and no diagnostic is produced.  On success it returns a fresh
non-null handle owning the loaded model. -/
def coreml_load_model (rt : Runtime) (path : String) (s : BridgeState) :
    Nat × BridgeState :=
  match rt.loadModel path with
  | none => (0, s)
  | some m =>
      (s.nextHandle,
       { s with nextHandle := s.nextHandle + 1, models := (s.nextHandle, m) :: s.models })

/-- Modelled from the spec: `coreml_release_model` (declared at
coreml_bridge.h line 12; its implementation is not under `src/`).
Deallocates all resources associated with the handle by dropping it from
the live-handle table. -/
def coreml_release_model (h : Nat) (s : BridgeState) : BridgeState :=
  { s with models := removeHandle h s.models }

/-- Modelled from the spec: `coreml_predict` (declared at coreml_bridge.h
line 21; its implementation is not under `src/`).  Exactly one of
`response`/`error` is populated and `success` mirrors which: an invalid or
null handle and a native inference failure both take the error branch with
a non-empty diagnostic (the spec guarantees failing results carry a
non-empty `error`, so an empty runtime message is replaced by a generic
one); a successful inference takes the response branch.  Every call
allocates one fresh result whose text buffers the caller must free; the
live-handle table is never touched. -/
def coreml_predict (rt : Runtime) (h : Nat) (input : String) (s : BridgeState) :
    CoreMLResult × BridgeState :=
  let postAlloc : BridgeState :=
    { s with nextResult := s.nextResult + 1, liveResults := s.nextResult :: s.liveResults }
  match findModel h s.models with
  | none => (⟨none, some "invalid model handle", 0⟩, postAlloc)
  | some m =>
      match rt.infer m input with
      | Except.ok out => (⟨some out, none, 1⟩, postAlloc)
      | Except.error e =>
          (⟨none, some (if e = "" then "inference failed" else e), 0⟩, postAlloc)

/-- Modelled from the spec: `coreml_free_result` (declared at
coreml_bridge.h line 22; its implementation is not under `src/`).  Releases
the text buffers owned by the identified result; nothing else — the
caller-owned struct storage, the live-handle table and the id counters are
untouched. -/
def coreml_free_result (r : Nat) (s : BridgeState) : BridgeState :=
  { s with liveResults := removeResult r s.liveResults }

/-- Total bridge-attributable allocations of a state: live model handles
plus live (unfreed) result buffers. -/
def bridgeAllocations (s : BridgeState) : Nat :=
  s.models.length + s.liveResults.length

/-- One boundary call, as recorded in an execution trace. -/
inductive Op where
  | load (path : String)
  | release (h : Nat)
  | predict (h : Nat) (input : String)
  | freeResult (r : Nat)
deriving DecidableEq

/-- The state transition of one boundary call (return values dropped). -/
def stepOp (rt : Runtime) : Op → BridgeState → BridgeState
  | Op.load p, s => (coreml_load_model rt p s).2
  | Op.release h, s => coreml_release_model h s
  | Op.predict h i, s => (coreml_predict rt h i s).2
  | Op.freeResult r, s => coreml_free_result r s

/-- Run a trace of boundary calls from a state. -/
def runOps (rt : Runtime) : List Op → BridgeState → BridgeState
  | [], s => s
  | op :: ops, s => runOps rt ops (stepOp rt op s)

/-- A trace is disciplined from a state when every `release` targets a
handle that is live at that point and every `free_result` targets a result
whose buffers are live at that point (the caller contract of the spec:
no double release, no double free, no foreign ids). -/
def disciplined (rt : Runtime) : List Op → BridgeState → Bool
  | [], _ => true
  | op :: ops, s =>
      (match op with
       | Op.release h => (findModel h s.models).isSome
       | Op.freeResult r => s.liveResults.any (fun x => x == r)
       | _ => true) &&
      disciplined rt ops (stepOp rt op s)

/-- Number of `load` calls in a trace that succeed (success of a load
depends only on the runtime and the path). -/
def countSuccessfulLoads (rt : Runtime) : List Op → Nat
  | [] => 0
  | Op.load p :: ops =>
      (if (rt.loadModel p).isSome then 1 else 0) + countSuccessfulLoads rt ops
  | _ :: ops => countSuccessfulLoads rt ops

/-- Number of `release` calls in a trace. -/
def countReleases : List Op → Nat
  | [] => 0
  | Op.release _ :: ops => 1 + countReleases ops
  | _ :: ops => countReleases ops

/-- Number of `predict` calls in a trace (each one allocates exactly one
result). -/
def countPredicts : List Op → Nat
  | [] => 0
  | Op.predict _ _ :: ops => 1 + countPredicts ops
  | _ :: ops => countPredicts ops

/-- Number of `free_result` calls in a trace. -/
def countFrees : List Op → Nat
  | [] => 0
  | Op.freeResult _ :: ops => 1 + countFrees ops
  | _ :: ops => countFrees ops

/-- A concrete native runtime used to instantiate the theorems: it loads
exactly the path "models/test.mlmodel", and inference fails exactly on the
input "fail". -/
def rtDemo : Runtime :=
  { loadModel := fun p => if p = "models/test.mlmodel" then some "tiny" else none,
    infer := fun _ i =>
      if i = "fail" then Except.error "native inference failed"
      else Except.ok ("echo " ++ i) }

/-- Iterated prediction: `predictIter rt h input n s` is the (n+1)-st call of
a run of repeated `coreml_predict` calls with the same handle and the same
input, each call started from the state the previous one left behind. -/
def predictIter (rt : Runtime) (h : Nat) (input : String) :
    Nat → BridgeState → CoreMLResult × BridgeState
  | 0, s => coreml_predict rt h input s
  | n + 1, s => predictIter rt h input n (coreml_predict rt h input s).2

/-- The return type the header gives `coreml_load_model` — the handle type
as producers see it. -/
def handleTypeOfLoad : Option CType := (headerDecls[0]?).map CDecl.retType

/-- The argument type the header gives `coreml_release_model` — the handle
type as the release operation sees it. -/
def handleTypeOfRelease : Option CType :=
  (headerDecls[1]?).bind (fun d => d.argTypes[0]?)

/-- The first argument type the header gives `coreml_predict` — the handle
type as the inference operation sees it. -/
def handleTypeOfPredict : Option CType :=
  (headerDecls[2]?).bind (fun d => d.argTypes[0]?)

/-- The state after loading the demo model: handle 1 is live. -/
def demoLoaded : BridgeState :=
  (coreml_load_model rtDemo "models/test.mlmodel" initState).2

/-- A disciplined demo trace: one load, one predict, then the matching
free and release. -/
def opsDemo : List Op :=
  [Op.load "models/test.mlmodel", Op.predict 1 "hello", Op.freeResult 0, Op.release 1]

/-- The state `coreml_predict` leaves behind is independent of the call's
outcome: one fresh result buffer is allocated and nothing else changes. -/
theorem coreml_predict_snd (rt : Runtime) (h : Nat) (input : String) (s : BridgeState) :
    (coreml_predict rt h input s).2 =
      { s with nextResult := s.nextResult + 1, liveResults := s.nextResult :: s.liveResults } := by
  rcases hfm : findModel h s.models with _ | m
  · simp [coreml_predict, hfm]
  · rcases hi : rt.infer m input with e | out <;> simp [coreml_predict, hfm, hi]

/-- The result of `coreml_predict` depends only on the live-handle table of
the starting state. -/
theorem coreml_predict_fst_congr (rt : Runtime) (h : Nat) (input : String)
    (s s' : BridgeState) (hm : s'.models = s.models) :
    (coreml_predict rt h input s').1 = (coreml_predict rt h input s).1 := by
  rcases hfm : findModel h s.models with _ | m
  · simp [coreml_predict, hm, hfm]
  · rcases hi : rt.infer m input with e | out <;> simp [coreml_predict, hm, hfm, hi]

/-- Every call of an iterated prediction run returns the result of a single
call from any state with the same live-handle table. -/
theorem predictIter_fst (rt : Runtime) (h : Nat) (input : String) (n : Nat) :
    ∀ s s' : BridgeState, s'.models = s.models →
      (predictIter rt h input n s').1 = (coreml_predict rt h input s).1 := by
  induction n with
  | zero =>
      intro s s' hm
      exact coreml_predict_fst_congr rt h input s s' hm
  | succ n ih =>
      intro s s' hm
      have hstep : (coreml_predict rt h input s').2.models = s'.models := by
        rw [coreml_predict_snd]
      exact ih s ((coreml_predict rt h input s').2) (hstep.trans hm)

/-- Removing a live handle shrinks the live-handle table by exactly one. -/
theorem removeHandle_length (h : Nat) (l : List (Nat × NativeModel))
    (hl : (findModel h l).isSome = true) :
    (removeHandle h l).length + 1 = l.length := by
  induction l with
  | nil => simp [findModel] at hl
  | cons e es ih =>
      by_cases he : e.1 = h
      · simp [removeHandle, he]
      · have hes : (findModel h es).isSome = true := by
          simpa [findModel, he] using hl
        have := ih hes
        simp [removeHandle, he]
        omega

/-- Removing a live result id shrinks the live-result list by exactly one. -/
theorem removeResult_length (r : Nat) (l : List Nat)
    (hl : l.any (fun x => x == r) = true) :
    (removeResult r l).length + 1 = l.length := by
  induction l with
  | nil => simp at hl
  | cons x xs ih =>
      by_cases hx : x = r
      · simp [removeResult, hx]
      · have hxs : xs.any (fun y => y == r) = true := by
          simpa [hx] using hl
        have := ih hxs
        simp [removeResult, hx]
        omega

/-- C1: every result returned by predict populates exactly one of
`response`/`error`, and the `success` flag is truthy (nonzero) precisely
when `response` is the populated field. -/
theorem C1_predict_result_invariant (rt : Runtime) (h : Nat) (input : String)
    (s : BridgeState) :
    (((coreml_predict rt h input s).1.response.isSome = true ∧
        (coreml_predict rt h input s).1.error = none) ∨
     ((coreml_predict rt h input s).1.response = none ∧
        (coreml_predict rt h input s).1.error.isSome = true)) ∧
    ((coreml_predict rt h input s).1.success ≠ 0 ↔
        (coreml_predict rt h input s).1.response.isSome = true) := by
  rcases hfm : findModel h s.models with _ | m
  · simp [coreml_predict, hfm]
  · rcases hi : rt.infer m input with e | out <;>
      simp [coreml_predict, hfm, hi]

/-- C3: when the native loader fails, load returns the null sentinel handle
and nothing else: the state is untouched and the pair returned carries no
diagnostic of any kind. -/
theorem C3_load_failure_null_sentinel (rt : Runtime) (path : String) (s : BridgeState)
    (hfail : rt.loadModel path = none) :
    coreml_load_model rt path s = (0, s) := by
  simp [coreml_load_model, hfail]

/-- C3 witness: the demo runtime fails on a nonexistent path and load
returns the null sentinel with the state unchanged. -/
theorem C3_witness :
    rtDemo.loadModel "does/not/exist.mlmodel" = none ∧
    coreml_load_model rtDemo "does/not/exist.mlmodel" initState = (0, initState) :=
  ⟨by decide,
   C3_load_failure_null_sentinel rtDemo "does/not/exist.mlmodel" initState (by decide)⟩

/-- C4: the header declares exactly four operations and they match, name by
name and type by type, the boundary surface the spec lists, including the
result structure's fields. -/
theorem C4_boundary_surface_matches_spec :
    headerDecls.length = 4 ∧ surfaceMatches = true := by
  constructor <;> decide

/-- C5: a failing load returns the null sentinel and allocates nothing —
the bridge state, and in particular the allocation count, is exactly what
it was before the call. -/
theorem C5_load_failure_allocates_nothing (rt : Runtime) (path : String)
    (s : BridgeState) (hfail : rt.loadModel path = none) :
    (coreml_load_model rt path s).1 = 0 ∧
    (coreml_load_model rt path s).2 = s ∧
    bridgeAllocations (coreml_load_model rt path s).2 = bridgeAllocations s := by
  simp [coreml_load_model, hfail]

/-- C5 witness: instantiated at the demo runtime and a path it cannot
load. -/
theorem C5_witness :
    rtDemo.loadModel "missing.mlmodel" = none ∧
    ((coreml_load_model rtDemo "missing.mlmodel" initState).1 = 0 ∧
     (coreml_load_model rtDemo "missing.mlmodel" initState).2 = initState ∧
     bridgeAllocations (coreml_load_model rtDemo "missing.mlmodel" initState).2 =
       bridgeAllocations initState) :=
  ⟨by decide,
   C5_load_failure_allocates_nothing rtDemo "missing.mlmodel" initState (by decide)⟩

/-- C6: repeated predict calls with the same input on the same unreleased
handle produce results with identical `success` status, whatever the number
of repetitions. -/
theorem C6_repeated_predict_same_success (rt : Runtime) (h : Nat) (input : String)
    (s : BridgeState) (n : Nat) :
    (predictIter rt h input n s).1.success = (coreml_predict rt h input s).1.success := by
  rw [predictIter_fst rt h input n s s rfl]

/-- C7: predict mutates no handle state visible to the caller — the
live-handle table and the handle id counter are exactly what they were
before the call, whether the call succeeds or fails. -/
theorem C7_predict_no_visible_handle_mutation (rt : Runtime) (h : Nat) (input : String)
    (s : BridgeState) :
    (coreml_predict rt h input s).2.models = s.models ∧
    (coreml_predict rt h input s).2.nextHandle = s.nextHandle := by
  rw [coreml_predict_snd]
  exact ⟨rfl, rfl⟩

/-- Removing a result id that is present shrinks the live-result list by
exactly one. -/
theorem removeResult_length_mem (r : Nat) (l : List Nat) (hl : r ∈ l) :
    (removeResult r l).length + 1 = l.length := by
  induction l with
  | nil => simp at hl
  | cons x xs ih =>
      by_cases hx : x = r
      · simp [removeResult, hx]
      · have hxs : r ∈ xs := by
          rcases List.mem_cons.mp hl with hl1 | hl1
          · exact absurd hl1.symm hx
          · exact hl1
        have := ih hxs
        simp [removeResult, hx]
        omega

/-- Counting invariant of disciplined traces: the live-handle table grows by
the successful loads and shrinks by the releases, and the live-result list
grows by the predicts and shrinks by the frees. -/
theorem runOps_counts (rt : Runtime) (ops : List Op) :
    ∀ s : BridgeState, disciplined rt ops s = true →
      (runOps rt ops s).models.length + countReleases ops
          = s.models.length + countSuccessfulLoads rt ops ∧
      (runOps rt ops s).liveResults.length + countFrees ops
          = s.liveResults.length + countPredicts ops := by
  induction ops with
  | nil =>
      intro s _
      simp [runOps, countReleases, countSuccessfulLoads, countFrees, countPredicts]
  | cons op ops ih =>
      intro s hd
      simp only [disciplined, Bool.and_eq_true] at hd
      obtain ⟨hc, htail⟩ := hd
      obtain ⟨h1, h2⟩ := ih _ htail
      cases op with
      | load p =>
          rcases hp : rt.loadModel p with _ | m <;>
            simp only [runOps, stepOp, coreml_load_model, hp, countReleases,
              countSuccessfulLoads, countFrees, countPredicts, Option.isSome_none,
              Option.isSome_some, if_true, if_false, List.length_cons,
              Bool.false_eq_true, ite_true, ite_false] at h1 h2 ⊢ <;>
            exact ⟨by omega, by omega⟩
      | release h =>
          have hlen := removeHandle_length h s.models hc
          simp only [runOps, stepOp, coreml_release_model, countReleases,
            countSuccessfulLoads, countFrees, countPredicts] at h1 h2 ⊢
          exact ⟨by omega, by omega⟩
      | predict h i =>
          simp only [runOps, stepOp, coreml_predict_snd, countReleases,
            countSuccessfulLoads, countFrees, countPredicts, List.length_cons] at h1 h2 ⊢
          exact ⟨by omega, by omega⟩
      | freeResult r =>
          have hmem : r ∈ s.liveResults := by
            simp only [List.any_eq_true, beq_iff_eq] at hc
            obtain ⟨x, hxmem, hxr⟩ := hc
            exact hxr ▸ hxmem
          have hlen := removeResult_length_mem r s.liveResults hmem
          simp only [runOps, stepOp, coreml_free_result, countReleases,
            countSuccessfulLoads, countFrees, countPredicts] at h1 h2 ⊢
          exact ⟨by omega, by omega⟩

/-- C2: a failing predict call reports the failure only through the
returned result — non-empty `error`, `response` empty — leaves the
live-handle table untouched, and the handle remains exactly as usable as
before: a subsequent predict call with any input returns the very result it
would have returned before the failing call. -/
theorem C2_predict_failure_contained (rt : Runtime) (h : Nat) (input input2 : String)
    (s : BridgeState)
    (hfail : (coreml_predict rt h input s).1.success = 0) :
    (∃ e, (coreml_predict rt h input s).1.error = some e ∧ e ≠ "") ∧
    (coreml_predict rt h input s).1.response = none ∧
    (coreml_predict rt h input s).2.models = s.models ∧
    (coreml_predict rt h input2 (coreml_predict rt h input s).2).1 =
      (coreml_predict rt h input2 s).1 := by
  refine ⟨?_, ?_, ?_, ?_⟩
  · rcases hfm : findModel h s.models with _ | m
    · exact ⟨"invalid model handle", by simp [coreml_predict, hfm], by decide⟩
    · rcases hi : rt.infer m input with e | out
      · by_cases he : e = ""
        · exact ⟨"inference failed", by simp [coreml_predict, hfm, hi, he], by decide⟩
        · exact ⟨e, by simp [coreml_predict, hfm, hi, he], he⟩
      · simp [coreml_predict, hfm, hi] at hfail
  · rcases hfm : findModel h s.models with _ | m
    · simp [coreml_predict, hfm]
    · rcases hi : rt.infer m input with e | out
      · simp [coreml_predict, hfm, hi]
      · simp [coreml_predict, hfm, hi] at hfail
  · simp [coreml_predict_snd]
  · exact coreml_predict_fst_congr rt h input2 s ((coreml_predict rt h input s).2)
      (by simp [coreml_predict_snd])

/-- C2 witness: on the demo runtime, predicting "fail" on the live handle 1
fails, the failure is confined to the result, and a subsequent predict on
the same handle returns what it would have returned before the failure. -/
theorem C2_witness :
    (coreml_predict rtDemo 1 "fail" demoLoaded).1.success = 0 ∧
    ((∃ e, (coreml_predict rtDemo 1 "fail" demoLoaded).1.error = some e ∧ e ≠ "") ∧
     (coreml_predict rtDemo 1 "fail" demoLoaded).1.response = none ∧
     (coreml_predict rtDemo 1 "fail" demoLoaded).2.models = demoLoaded.models ∧
     (coreml_predict rtDemo 1 "hello" (coreml_predict rtDemo 1 "fail" demoLoaded).2).1 =
       (coreml_predict rtDemo 1 "hello" demoLoaded).1) :=
  ⟨by decide, C2_predict_failure_contained rtDemo 1 "fail" "hello" demoLoaded (by decide)⟩

/-- C8: in every execution in which each handle obtained from a successful
load is released exactly once (each release targeting a then-live handle)
and each predict result is freed exactly once (each free targeting a
then-live result), no bridge-attributable allocation remains at the end:
the live-handle table and the live-result list are both empty. -/
theorem C8_pairing_discipline_no_leak (rt : Runtime) (ops : List Op)
    (hd : disciplined rt ops initState = true)
    (hrel : countReleases ops = countSuccessfulLoads rt ops)
    (hfree : countFrees ops = countPredicts ops) :
    (runOps rt ops initState).models = [] ∧
    (runOps rt ops initState).liveResults = [] ∧
    bridgeAllocations (runOps rt ops initState) = 0 := by
  obtain ⟨h1, h2⟩ := runOps_counts rt ops initState hd
  have hm0 : initState.models.length = 0 := rfl
  have hr0 : initState.liveResults.length = 0 := rfl
  rw [hm0] at h1
  rw [hr0] at h2
  have hm : (runOps rt ops initState).models.length = 0 := by omega
  have hr : (runOps rt ops initState).liveResults.length = 0 := by omega
  refine ⟨List.length_eq_zero.mp hm, List.length_eq_zero.mp hr, ?_⟩
  simp [bridgeAllocations, hm, hr]

/-- C8 witness: the demo trace load, predict, free, release is disciplined,
pairs every load with one release and every predict with one free, and
leaves no allocation behind. -/
theorem C8_witness :
    (disciplined rtDemo opsDemo initState = true ∧
     countReleases opsDemo = countSuccessfulLoads rtDemo opsDemo ∧
     countFrees opsDemo = countPredicts opsDemo) ∧
    ((runOps rtDemo opsDemo initState).models = [] ∧
     (runOps rtDemo opsDemo initState).liveResults = [] ∧
     bridgeAllocations (runOps rtDemo opsDemo initState) = 0) :=
  ⟨⟨by decide, by decide, by decide⟩,
   C8_pairing_discipline_no_leak rtDemo opsDemo (by decide) (by decide) (by decide)⟩

/-- C9: the handle type is the untyped `void*` — producers (load's return)
and consumers (release's and predict's handle arguments) all use that one
type, so live, released and null handles are indistinguishable to the type
system — and the failure sentinel returned by load is exactly the null
pointer: a call returns null precisely when the native loader fails, so a
NULL comparison separates the sentinel from every valid handle. -/
theorem C9_untyped_handle_null_sentinel (rt : Runtime) (path : String) (s : BridgeState)
    (hs : 1 ≤ s.nextHandle) :
    CoreMLModelHandle = CType.voidPtr ∧
    handleTypeOfLoad = some CoreMLModelHandle ∧
    handleTypeOfRelease = some CoreMLModelHandle ∧
    handleTypeOfPredict = some CoreMLModelHandle ∧
    ((coreml_load_model rt path s).1 = 0 ↔ rt.loadModel path = none) := by
  refine ⟨rfl, by decide, by decide, by decide, ?_⟩
  rcases hp : rt.loadModel path with _ | m
  · simp [coreml_load_model, hp]
  · simp [coreml_load_model, hp]
    omega

/-- C9 witness: instantiated at the demo runtime, a path it cannot load,
and the initial state. -/
theorem C9_witness :
    1 ≤ initState.nextHandle ∧
    (CoreMLModelHandle = CType.voidPtr ∧
     handleTypeOfLoad = some CoreMLModelHandle ∧
     handleTypeOfRelease = some CoreMLModelHandle ∧
     handleTypeOfPredict = some CoreMLModelHandle ∧
     ((coreml_load_model rtDemo "no/such/path" initState).1 = 0 ↔
        rtDemo.loadModel "no/such/path" = none)) :=
  ⟨by decide, C9_untyped_handle_null_sentinel rtDemo "no/such/path" initState (by decide)⟩

/-- C10: the header returns the result struct from predict by value and
passes it to free_result by pointer, and freeing releases only the result's
text buffers: the live-handle table, both id counters — everything except
the freed buffers — are untouched, so the caller keeps ownership of the
struct storage itself. -/
theorem C10_result_by_value_free_by_pointer (r : Nat) (s : BridgeState) :
    (headerDecls[2]?).map CDecl.retType = some CType.structCoreMLResult ∧
    (headerDecls[3]?).bind (fun d => d.argTypes[0]?) = some CType.ptrStructCoreMLResult ∧
    (coreml_free_result r s).models = s.models ∧
    (coreml_free_result r s).nextHandle = s.nextHandle ∧
    (coreml_free_result r s).nextResult = s.nextResult ∧
    (coreml_free_result r s).liveResults = removeResult r s.liveResults :=
  ⟨rfl, rfl, rfl, rfl, rfl, rfl⟩
